import Mathlib

/-!
# Slic3r `TriangleMesh.hpp`: intersection lines, endpoint references, facet tags

A shallow embedding of the data types declared in
`xs/src/libslic3r/TriangleMesh.hpp` and of their inline member functions.

* C++ `int` fields are `Int`; the sentinel for "not set" is `-1`.
* The `uint32_t flags` field is a `Nat` together with the range fact
  `flags < 2 ^ 32`; `|` and `&` are `|||` and `&&&`, and the operand
  `~NO_SEED` (an `int` converted to `uint32_t`) is computed by `not32`.
-/

namespace Slic3r

/-! ## Data model -/

/-- The facet classification tag, `enum FacetEdgeType`. -/
inductive FacetEdgeType where
  /-- A general case, the cutting plane intersect a face at two different edges. -/
  | feGeneral
  /-- Two vertices are aligned with the cutting plane, the third vertex is below the cutting plane. -/
  | feTop
  /-- Two vertices are aligned with the cutting plane, the third vertex is above the cutting plane. -/
  | feBottom
  /-- All three vertices of a face are aligned with the cutting plane. -/
  | feHorizontal
  deriving DecidableEq, Repr

/-- The base class `Point` (declared in `Point.hpp`): two scaled coordinates. -/
structure Point where
  x : Int
  y : Int
  deriving DecidableEq, Repr

/-- The base class `Line` (declared in `Line.hpp`): the two end points `a`, `b`. -/
structure Line where
  a : Point
  b : Point
  deriving DecidableEq, Repr

/-- The class `IntersectionReference`: where an intersection point lies. -/
structure IntersectionReference where
  /-- Index of the mesh vertex. -/
  point_id : Int
  /-- Index of the mesh edge. -/
  edge_id : Int
  deriving DecidableEq, Repr

/-- The class `IntersectionPoint : public Point, public IntersectionReference`. -/
structure IntersectionPoint where
  pt : Point
  ref : IntersectionReference
  deriving DecidableEq, Repr

/-- The class `IntersectionLine : public Line`. -/
structure IntersectionLine where
  /-- The inherited `Line` sub-object (`Point a, b`). -/
  line : Line
  a_id : Int
  b_id : Int
  edge_a_id : Int
  edge_b_id : Int
  edge_type : FacetEdgeType
  /-- The field `uint32_t flags`. -/
  flags : Nat
  deriving DecidableEq, Repr

/-! ## Constructors -/

/-- The default constructor `IntersectionReference() : point_id(-1), edge_id(-1)`. -/
def IntersectionReference.default : IntersectionReference :=
  { point_id := -1, edge_id := -1 }

/-- The constructor `IntersectionReference(int point_id, int edge_id)`: both arguments
are stored as given. -/
def IntersectionReference.ctor (point_id edge_id : Int) : IntersectionReference :=
  { point_id := point_id, edge_id := edge_id }

/-- The constructor `IntersectionPoint()`: the reference base is default-constructed; `base` is the
`Point` base sub-object as `Point()` (in `Point.hpp`) leaves it. -/
def IntersectionPoint.default (base : Point) : IntersectionPoint :=
  { pt := base, ref := IntersectionReference.default }

/-- The constructor `IntersectionPoint(int point_id, int edge_id, const Point &pt)`. -/
def IntersectionPoint.ctor (point_id edge_id : Int) (pt : Point) : IntersectionPoint :=
  { pt := pt, ref := IntersectionReference.ctor point_id edge_id }

/-- The constructor `IntersectionPoint(const IntersectionReference &ir, const Point &pt)`. -/
def IntersectionPoint.ofRef (ir : IntersectionReference) (pt : Point) : IntersectionPoint :=
  { pt := pt, ref := ir }

/-- The values of a C++ `int` (32 bit, twos complement). -/
def isInt32 (v : Int) : Prop := -(2 : Int) ^ 31 ≤ v ∧ v < (2 : Int) ^ 31

instance (v : Int) : Decidable (isInt32 v) := by
  unfold isInt32; infer_instance

/-- The `IntersectionReference` values that the constructors of the class produce:
the default constructor, the two-argument constructor on any two `int`s, and the
copy made from an already constructed reference (which is the same value). -/
inductive IntersectionReference.Constructed : IntersectionReference → Prop where
  | default : Constructed IntersectionReference.default
  | ctor (point_id edge_id : Int) (hp : isInt32 point_id) (he : isInt32 edge_id) :
      Constructed (IntersectionReference.ctor point_id edge_id)

/-! ## Flags of an intersection line -/

namespace IntersectionLine

def EDGE0_NO_NEIGHBOR : Nat := 0x001
def EDGE1_NO_NEIGHBOR : Nat := 0x002
def EDGE2_NO_NEIGHBOR : Nat := 0x004
def EDGE0_FOLD : Nat := 0x010
def EDGE1_FOLD : Nat := 0x020
def EDGE2_FOLD : Nat := 0x040
def NO_SEED : Nat := 0x100
def SKIP : Nat := 0x200

/-- The eight enumerators, in declaration order. -/
def allFlags : List Nat :=
  [EDGE0_NO_NEIGHBOR, EDGE1_NO_NEIGHBOR, EDGE2_NO_NEIGHBOR,
   EDGE0_FOLD, EDGE1_FOLD, EDGE2_FOLD, NO_SEED, SKIP]

/-- The no-neighbor and fold enumerators. -/
def edgeFlags : List Nat :=
  [EDGE0_NO_NEIGHBOR, EDGE1_NO_NEIGHBOR, EDGE2_NO_NEIGHBOR,
   EDGE0_FOLD, EDGE1_FOLD, EDGE2_FOLD]

/-- The operand `~c` of `flags &= ~c`: the enumerator is an `int`, `~` gives
`-c - 1`, and the conversion to `uint32_t` reduces it modulo `2 ^ 32`. -/
def not32 (c : Nat) : Nat := ((-(c : Int) - 1) % (2 : Int) ^ 32).toNat

/-- The constructor `IntersectionLine() : a_id(-1), b_id(-1), edge_a_id(-1), edge_b_id(-1),
edge_type(feGeneral), flags(0)`; `base` is the `Line` base sub-object as `Line()`
(in `Line.hpp`) leaves it. -/
def default (base : Line) : IntersectionLine :=
  { line := base, a_id := -1, b_id := -1, edge_a_id := -1, edge_b_id := -1,
    edge_type := FacetEdgeType.feGeneral, flags := 0 }

/-- The member `bool skip() const { return (this->flags & SKIP) != 0; }` -/
def skip (l : IntersectionLine) : Bool := (l.flags &&& SKIP) != 0

/-- The member `void set_skip() { this->flags |= SKIP; }` -/
def set_skip (l : IntersectionLine) : IntersectionLine :=
  { l with flags := l.flags ||| SKIP }

/-- The member `bool is_seed_candidate() const { return (this->flags & NO_SEED) == 0 && ! this->skip(); }` -/
def is_seed_candidate (l : IntersectionLine) : Bool :=
  (l.flags &&& NO_SEED) == 0 && !l.skip

/-- The member `void set_no_seed(bool set) { if (set) this->flags |= NO_SEED; else this->flags &= ~NO_SEED; }` -/
def set_no_seed (l : IntersectionLine) (set : Bool) : IntersectionLine :=
  if set then { l with flags := l.flags ||| NO_SEED }
  else { l with flags := l.flags &&& not32 NO_SEED }

/-- A direct write `flags |= c` to the public field, as the slicer does for the
no-neighbor and fold bits. -/
def set_flag (l : IntersectionLine) (c : Nat) : IntersectionLine :=
  { l with flags := l.flags ||| c }

/-- A direct write `flags &= ~c` to the public field. -/
def clear_flag (l : IntersectionLine) (c : Nat) : IntersectionLine :=
  { l with flags := l.flags &&& not32 c }

/-- The range of the `uint32_t` field. -/
def WellFormed (l : IntersectionLine) : Prop := l.flags < 2 ^ 32

instance (l : IntersectionLine) : Decidable l.WellFormed := by
  unfold WellFormed; infer_instance

/-- A line with given flags and otherwise arbitrary concrete fields, for evaluation. -/
def sample (flags : Nat) : IntersectionLine :=
  { line := ⟨⟨0, 0⟩, ⟨10, 0⟩⟩, a_id := 3, b_id := -1, edge_a_id := -1, edge_b_id := 7,
    edge_type := FacetEdgeType.feTop, flags := flags }

/-- A call of one of the two mutating member functions. -/
inductive Mutator where
  | set_skip
  | set_no_seed (set : Bool)
  deriving DecidableEq, Repr

/-- Run one mutator call. -/
def Mutator.apply (l : IntersectionLine) : Mutator → IntersectionLine
  | .set_skip => l.set_skip
  | .set_no_seed b => l.set_no_seed b

/-- Run a finite sequence of mutator calls, first call first. -/
def run (l : IntersectionLine) (calls : List Mutator) : IntersectionLine :=
  calls.foldl Mutator.apply l

/-- The lines obtained from the default constructor by the member functions. -/
inductive Constructed : IntersectionLine → Prop where
  | default (base : Line) : Constructed (IntersectionLine.default base)
  | step (l : IntersectionLine) (m : Mutator) (h : Constructed l) : Constructed (m.apply l)


/-- The reading of "identifies its location by exactly one reference":
exactly one of the vertex id and the edge id of an end point differs from `-1`. -/
def ExactlyOneSet (id edge_id : Int) : Prop :=
  (id ≠ -1 ∧ edge_id = -1) ∨ (id = -1 ∧ edge_id ≠ -1)

instance (id edge_id : Int) : Decidable (ExactlyOneSet id edge_id) := by
  unfold ExactlyOneSet; infer_instance

end IntersectionLine

/-! ## The plane intersector: classification of one facet at one height -/

/-- Modelled from the spec: a scaled vertex, the "fixed-point integer copy of a
vertex" in which all slicing arithmetic is done; the vertex type `stl_vertex` is
declared in `admesh/stl.h`, which is not at hand. -/
structure ScaledVertex where
  x : Int
  y : Int
  z : Int
  deriving DecidableEq, Repr

namespace TriangleMeshSlicer

/-- What the contract of the plane intersector fixes about the result of one call:
either the facet gives `NoSlice`, or it gives a fragment that carries a
classification tag. -/
inductive SliceOutcome where
  | NoSlice
  | Classified (edge_type : FacetEdgeType)
  deriving DecidableEq, Repr

/-- The number of the three vertices that lie exactly on the plane; heights are
"compared exactly in integer space, no epsilon". -/
def onPlaneCount (slice_z : Int) (v0 v1 v2 : ScaledVertex) : Nat :=
  ([v0, v1, v2].filter (fun v => v.z = slice_z)).length

/-- Modelled from the spec: "degenerate geometry (zero-area facet, coincident
vertices)": the cross product of the two edge vectors at `v0` is the zero vector. -/
def zero_area (v0 v1 v2 : ScaledVertex) : Bool :=
  ((v1.y - v0.y) * (v2.z - v0.z) - (v1.z - v0.z) * (v2.y - v0.y) == 0) &&
  ((v1.z - v0.z) * (v2.x - v0.x) - (v1.x - v0.x) * (v2.z - v0.z) == 0) &&
  ((v1.x - v0.x) * (v2.y - v0.y) - (v1.y - v0.y) * (v2.x - v0.x) == 0)

/-- Modelled from the spec: the classification done by `TriangleMeshSlicer::slice_facet`,
whose body is in `TriangleMesh.cpp`; only its declaration (`TriangleMesh.hpp`, lines
167-168) is at hand. The cases are those of the contract of the plane intersector
and of the error handling design, in the words of the specification:

* a degenerate facet "classifies as `NoSlice`";
* "all three vertices strictly on one side" give `NoSlice`;
* "all three on the plane" give `Horizontal`;
* "exactly two vertices exactly on the plane, third strictly above" give `Top`,
  "third strictly below" give `Bottom`;
* "one or two vertices strictly on each side, none exactly on the plane" give
  `General`.

A facet with exactly one vertex on the plane is not covered by these cases and gets
no result (`none`). The comments of the enumerators `feTop` and `feBottom` in the
header word the two tags the other way round (`feTop`: third vertex below); the body
that decides is missing, and this definition follows the sentence of the
specification. -/
def slice_facet (slice_z : Int) (v0 v1 v2 : ScaledVertex) : Option SliceOutcome :=
  if zero_area v0 v1 v2 then some SliceOutcome.NoSlice
  else if (v0.z < slice_z ∧ v1.z < slice_z ∧ v2.z < slice_z) ∨
      (slice_z < v0.z ∧ slice_z < v1.z ∧ slice_z < v2.z) then some SliceOutcome.NoSlice
  else if onPlaneCount slice_z v0 v1 v2 = 3 then
    some (SliceOutcome.Classified FacetEdgeType.feHorizontal)
  else if onPlaneCount slice_z v0 v1 v2 = 2 then
    if slice_z < v0.z ∨ slice_z < v1.z ∨ slice_z < v2.z then
      some (SliceOutcome.Classified FacetEdgeType.feTop)
    else some (SliceOutcome.Classified FacetEdgeType.feBottom)
  else if onPlaneCount slice_z v0 v1 v2 = 0 then
    some (SliceOutcome.Classified FacetEdgeType.feGeneral)
  else none

/-- The facet has exactly two vertices exactly on the plane and its third vertex
strictly above the plane. -/
def TwoOnPlaneThirdAbove (slice_z : Int) (v0 v1 v2 : ScaledVertex) : Prop :=
  (v0.z = slice_z ∧ v1.z = slice_z ∧ slice_z < v2.z) ∨
  (v0.z = slice_z ∧ v2.z = slice_z ∧ slice_z < v1.z) ∨
  (v1.z = slice_z ∧ v2.z = slice_z ∧ slice_z < v0.z)

/-- The facet has exactly two vertices exactly on the plane and its third vertex
strictly below the plane. -/
def TwoOnPlaneThirdBelow (slice_z : Int) (v0 v1 v2 : ScaledVertex) : Prop :=
  (v0.z = slice_z ∧ v1.z = slice_z ∧ v2.z < slice_z) ∨
  (v0.z = slice_z ∧ v2.z = slice_z ∧ v1.z < slice_z) ∨
  (v1.z = slice_z ∧ v2.z = slice_z ∧ v0.z < slice_z)

instance (slice_z : Int) (v0 v1 v2 : ScaledVertex) :
    Decidable (TwoOnPlaneThirdAbove slice_z v0 v1 v2) := by
  unfold TwoOnPlaneThirdAbove; infer_instance

instance (slice_z : Int) (v0 v1 v2 : ScaledVertex) :
    Decidable (TwoOnPlaneThirdBelow slice_z v0 v1 v2) := by
  unfold TwoOnPlaneThirdBelow; infer_instance

end TriangleMeshSlicer

/-! ## Topology: patches of a mesh -/

/-- Modelled from the spec: a facet, "3 vertex indices ... and up to 3 neighbor-facet
ids, one per edge"; the mesh storage `stl_file` is declared in `admesh/stl.h`, which
is not at hand. A missing neighbour is `-1`. -/
structure Facet where
  vertex0 : Nat
  vertex1 : Nat
  vertex2 : Nat
  neighbor0 : Int
  neighbor1 : Int
  neighbor2 : Int
  deriving DecidableEq, Repr

/-- The class `TriangleMesh`, reduced to the facets of its `stl` member and the
`repaired` field. -/
structure TriangleMesh where
  facets : List Facet
  repaired : Bool
  deriving DecidableEq, Repr

namespace TriangleMesh

/-- The constructor `TriangleMesh()`: a mesh without facets. -/
def empty : TriangleMesh := { facets := [], repaired := false }

/-- The member `size_t facets_count() const`. -/
def facets_count (m : TriangleMesh) : Nat := m.facets.length

/-- The facets adjacent to facet `i` through a shared edge: its neighbour ids that
name a facet of the mesh. -/
def neighborsOf (m : TriangleMesh) (i : Nat) : List Nat :=
  match m.facets.get? i with
  | none => []
  | some f =>
    [f.neighbor0, f.neighbor1, f.neighbor2].filterMap fun n =>
      if 0 ≤ n ∧ n < (m.facets.length : Int) then some n.toNat else none

/-- Append the elements of `xs` that are not yet in `seen`. -/
def addNew (seen xs : List Nat) : List Nat :=
  xs.foldl (fun acc x => if x ∈ acc then acc else acc ++ [x]) seen

/-- One round of the traversal: add the neighbours of every facet seen so far. -/
def expand (m : TriangleMesh) (seen : List Nat) : List Nat :=
  seen.foldl (fun acc i => addNew acc (neighborsOf m i)) seen

/-- The facets connected to `seed`: as many rounds as the mesh has facets, after
which no round can add a facet. -/
def reach (m : TriangleMesh) (seed : Nat) : List Nat :=
  (List.range m.facets.length).foldl (fun seen _ => expand m seen) [seed]

/-- Count the connected components met along `todo`, given the facets already
assigned to a component. -/
def countPatches (m : TriangleMesh) : List Nat → List Nat → Nat
  | [], _ => 0
  | i :: rest, visited =>
    if i ∈ visited then countPatches m rest visited
    else countPatches m rest (addNew visited (reach m i)) + 1

/-- Modelled from the spec: `size_t number_of_patches() const`, "Count disconnected
triangle patches": the number of connected components of the facet adjacency graph.
Its body is in `TriangleMesh.cpp`, of which only the declaration is at hand. -/
def number_of_patches (m : TriangleMesh) : Nat :=
  countPatches m (List.range m.facets.length) []

/-- Modelled from the spec: `bool has_multiple_patches() const`, which
"is `patch_count > 1`"; the header documents it as "Returns true, if there are two
and more connected patches in the mesh. Returns false, if one or zero connected patch
is in the mesh." Its body is in `TriangleMesh.cpp`, of which only the declaration is
at hand. -/
def has_multiple_patches (m : TriangleMesh) : Bool :=
  decide (1 < number_of_patches m)

/-- A closed tetrahedron whose facets are numbered from `base`: every facet has the
three others as neighbours. -/
def tetrahedron (base : Nat) : List Facet :=
  [ { vertex0 := 0, vertex1 := 1, vertex2 := 2,
      neighbor0 := base + 1, neighbor1 := base + 2, neighbor2 := base + 3 },
    { vertex0 := 0, vertex1 := 1, vertex2 := 3,
      neighbor0 := base, neighbor1 := base + 2, neighbor2 := base + 3 },
    { vertex0 := 1, vertex1 := 2, vertex2 := 3,
      neighbor0 := base, neighbor1 := base + 1, neighbor2 := base + 3 },
    { vertex0 := 0, vertex1 := 2, vertex2 := 3,
      neighbor0 := base, neighbor1 := base + 1, neighbor2 := base + 2 } ]

/-- One connected solid. -/
def oneSolid : TriangleMesh := { facets := tetrahedron 0, repaired := true }

/-- Two disjoint solids in one mesh. -/
def twoSolids : TriangleMesh := { facets := tetrahedron 0 ++ tetrahedron 4, repaired := true }

end TriangleMesh

namespace IntersectionLine

/-! ## Bit-level lemmas -/

theorem SKIP_eq : SKIP = 2 ^ 9 := by decide

theorem NO_SEED_eq : NO_SEED = 2 ^ 8 := by decide

theorem and_two_pow_eq_zero_iff (n k : Nat) : n &&& 2 ^ k = 0 ↔ n.testBit k = false := by
  rw [Nat.and_two_pow]
  have hk : (2 : Nat) ^ k ≠ 0 := by positivity
  cases h : n.testBit k <;> simp [hk]

theorem testBit_or_two_pow (f k i : Nat) :
    (f ||| 2 ^ k).testBit i = (f.testBit i || decide (k = i)) := by
  rw [Nat.testBit_or, Nat.testBit_two_pow]

theorem not32_two_pow (k : Nat) (hk : k < 32) : not32 (2 ^ k) = (2 ^ 32 - 1) ^^^ 2 ^ k := by
  interval_cases k <;> decide

theorem testBit_not32_two_pow (k : Nat) (hk : k < 32) (i : Nat) :
    (not32 (2 ^ k)).testBit i = (decide (i < 32) && !decide (k = i)) := by
  rw [not32_two_pow k hk, Nat.testBit_xor, Nat.testBit_two_pow_sub_one, Nat.testBit_two_pow]
  by_cases hki : k = i
  · subst hki; simp [hk]
  · simp [hki]

theorem testBit_and_not32_two_pow (f k : Nat) (hk : k < 32) (i : Nat) :
    (f &&& not32 (2 ^ k)).testBit i = (f.testBit i && (decide (i < 32) && !decide (k = i))) := by
  rw [Nat.testBit_and, testBit_not32_two_pow k hk]

theorem testBit_of_wellFormed {l : IntersectionLine} (h : l.WellFormed) {i : Nat}
    (hi : 32 ≤ i) : l.flags.testBit i = false := by
  apply Nat.testBit_lt_two_pow
  exact lt_of_lt_of_le h (Nat.pow_le_pow_right (by decide) hi)

theorem and_two_pow_beq_zero (n k : Nat) : ((n &&& 2 ^ k) == 0) = !n.testBit k := by
  cases h : n.testBit k
  · rw [(and_two_pow_eq_zero_iff n k).2 h]; rfl
  · have hne : n &&& 2 ^ k ≠ 0 := fun h0 => by
      rw [(and_two_pow_eq_zero_iff n k).1 h0] at h
      exact Bool.noConfusion h
    simpa using hne

theorem and_two_pow_bne_zero (n k : Nat) : ((n &&& 2 ^ k) != 0) = n.testBit k := by
  show (!((n &&& 2 ^ k) == 0)) = _
  rw [and_two_pow_beq_zero, Bool.not_not]

theorem skip_eq_testBit (l : IntersectionLine) : l.skip = l.flags.testBit 9 := by
  unfold skip
  rw [SKIP_eq, and_two_pow_bne_zero]

theorem is_seed_candidate_eq_testBit (l : IntersectionLine) :
    l.is_seed_candidate = (!l.flags.testBit 8 && !l.flags.testBit 9) := by
  unfold is_seed_candidate
  rw [skip_eq_testBit, NO_SEED_eq, and_two_pow_beq_zero]

theorem set_skip_testBit (l : IntersectionLine) (i : Nat) :
    l.set_skip.flags.testBit i = (l.flags.testBit i || decide (9 = i)) := by
  show (l.flags ||| SKIP).testBit i = _
  rw [SKIP_eq, testBit_or_two_pow]

theorem set_no_seed_testBit (l : IntersectionLine) (b : Bool) (i : Nat) :
    (l.set_no_seed b).flags.testBit i =
      if b then (l.flags.testBit i || decide (8 = i))
      else (l.flags.testBit i && (decide (i < 32) && !decide (8 = i))) := by
  cases b
  · show (l.flags &&& not32 NO_SEED).testBit i = _
    rw [NO_SEED_eq, testBit_and_not32_two_pow _ _ (by decide)]
    simp
  · show (l.flags ||| NO_SEED).testBit i = _
    rw [NO_SEED_eq, testBit_or_two_pow]
    simp

theorem set_flag_testBit (l : IntersectionLine) (k i : Nat) :
    (l.set_flag (2 ^ k)).flags.testBit i = (l.flags.testBit i || decide (k = i)) :=
  testBit_or_two_pow _ _ _

theorem clear_flag_testBit (l : IntersectionLine) (k : Nat) (hk : k < 32) (i : Nat) :
    (l.clear_flag (2 ^ k)).flags.testBit i =
      (l.flags.testBit i && (decide (i < 32) && !decide (k = i))) :=
  testBit_and_not32_two_pow _ _ hk _

theorem flags_ext {l m : IntersectionLine} (h1 : l.line = m.line) (h2 : l.a_id = m.a_id)
    (h3 : l.b_id = m.b_id) (h4 : l.edge_a_id = m.edge_a_id) (h5 : l.edge_b_id = m.edge_b_id)
    (h6 : l.edge_type = m.edge_type) (h7 : ∀ i, l.flags.testBit i = m.flags.testBit i) :
    l = m := by
  cases l; cases m
  simp only [IntersectionLine.mk.injEq]
  exact ⟨h1, h2, h3, h4, h5, h6, Nat.eq_of_testBit_eq h7⟩

theorem set_skip_wellFormed {l : IntersectionLine} (h : l.WellFormed) : l.set_skip.WellFormed :=
  Nat.or_lt_two_pow h (by decide)

theorem set_no_seed_wellFormed {l : IntersectionLine} (h : l.WellFormed) (b : Bool) :
    (l.set_no_seed b).WellFormed := by
  cases b
  · exact Nat.and_lt_two_pow _ (by decide)
  · exact Nat.or_lt_two_pow h (by decide)

theorem edgeFlags_cases {c : Nat} (hc : c ∈ edgeFlags) :
    ∃ k, c = 2 ^ k ∧ k < 32 ∧ k ≠ 8 ∧ k ≠ 9 := by
  simp only [edgeFlags, List.mem_cons, List.mem_singleton, List.not_mem_nil, or_false] at hc
  rcases hc with h | h | h | h | h | h
  · exact ⟨0, by rw [h]; decide, by decide, by decide, by decide⟩
  · exact ⟨1, by rw [h]; decide, by decide, by decide, by decide⟩
  · exact ⟨2, by rw [h]; decide, by decide, by decide, by decide⟩
  · exact ⟨4, by rw [h]; decide, by decide, by decide, by decide⟩
  · exact ⟨5, by rw [h]; decide, by decide, by decide, by decide⟩
  · exact ⟨6, by rw [h]; decide, by decide, by decide, by decide⟩

theorem and_two_pow_congr {f g k : Nat} (h : f.testBit k = g.testBit k) :
    f &&& 2 ^ k = g &&& 2 ^ k := by
  rw [Nat.and_two_pow, Nat.and_two_pow, h]

theorem skip_apply (m : Mutator) (l : IntersectionLine) (h : l.skip = true) :
    (m.apply l).skip = true := by
  rw [skip_eq_testBit] at h ⊢
  cases m with
  | set_skip => show l.set_skip.flags.testBit 9 = true; rw [set_skip_testBit, h]; rfl
  | set_no_seed b =>
    show (l.set_no_seed b).flags.testBit 9 = true
    rw [set_no_seed_testBit, h]
    cases b <;> simp

theorem skip_run (calls : List Mutator) (l : IntersectionLine) (h : l.skip = true) :
    (l.run calls).skip = true := by
  induction calls generalizing l with
  | nil => exact h
  | cons m ms ih => exact ih (m.apply l) (skip_apply m l h)

/-! ## The claims -/

/-- C1: for every flags value, `is_seed_candidate()` returns true if and only if
`skip()` is false and the NO_SEED flag is not set; in terms of bits, if and only if
bit 9 (SKIP) and bit 8 (NO_SEED) are both clear. -/
theorem is_seed_candidate_iff (l : IntersectionLine) :
    (l.is_seed_candidate = true ↔ (l.skip = false ∧ l.flags &&& NO_SEED = 0)) ∧
    (l.skip = false ↔ l.flags &&& SKIP = 0) ∧
    (l.is_seed_candidate = true ↔
      (l.flags.testBit 9 = false ∧ l.flags.testBit 8 = false)) := by
  have h8 : l.flags &&& NO_SEED = 0 ↔ l.flags.testBit 8 = false := by
    rw [NO_SEED_eq]; exact and_two_pow_eq_zero_iff _ _
  have h9 : l.flags &&& SKIP = 0 ↔ l.flags.testBit 9 = false := by
    rw [SKIP_eq]; exact and_two_pow_eq_zero_iff _ _
  rw [h8, h9, is_seed_candidate_eq_testBit, skip_eq_testBit]
  cases l.flags.testBit 8 <;> cases l.flags.testBit 9 <;> simp

/-- C2: on every 32-bit flags value, `set_skip()` changes no bit other than SKIP
(bit 9) and `set_no_seed(b)` changes no bit other than NO_SEED (bit 8); every
no-neighbor and fold bit is read back unchanged, the result is again a 32-bit
value, and the end points, ids and edge_type of the line are untouched. -/
theorem mutators_frame (l : IntersectionLine) (h : l.WellFormed) (b : Bool) :
    (∀ i, i ≠ 9 → l.set_skip.flags.testBit i = l.flags.testBit i) ∧
    (∀ i, i ≠ 8 → (l.set_no_seed b).flags.testBit i = l.flags.testBit i) ∧
    (∀ c ∈ edgeFlags, l.set_skip.flags &&& c = l.flags &&& c ∧
        (l.set_no_seed b).flags &&& c = l.flags &&& c) ∧
    l.set_skip.flags &&& NO_SEED = l.flags &&& NO_SEED ∧
    (l.set_no_seed b).flags &&& SKIP = l.flags &&& SKIP ∧
    l.set_skip.WellFormed ∧ (l.set_no_seed b).WellFormed ∧
    (l.set_skip.line = l.line ∧ l.set_skip.a_id = l.a_id ∧ l.set_skip.b_id = l.b_id ∧
      l.set_skip.edge_a_id = l.edge_a_id ∧ l.set_skip.edge_b_id = l.edge_b_id ∧
      l.set_skip.edge_type = l.edge_type) ∧
    ((l.set_no_seed b).line = l.line ∧ (l.set_no_seed b).a_id = l.a_id ∧
      (l.set_no_seed b).b_id = l.b_id ∧ (l.set_no_seed b).edge_a_id = l.edge_a_id ∧
      (l.set_no_seed b).edge_b_id = l.edge_b_id ∧
      (l.set_no_seed b).edge_type = l.edge_type) := by
  have hs : ∀ i, i ≠ 9 → l.set_skip.flags.testBit i = l.flags.testBit i := by
    intro i hi
    rw [set_skip_testBit]
    have : ¬ (9 = i) := fun e => hi e.symm
    simp [this]
  have hn : ∀ i, i ≠ 8 → (l.set_no_seed b).flags.testBit i = l.flags.testBit i := by
    intro i hi
    rw [set_no_seed_testBit]
    have h8 : ¬ (8 = i) := fun e => hi e.symm
    cases b
    · by_cases h32 : i < 32
      · simp [h8, h32]
      · simp [h32, testBit_of_wellFormed h (Nat.le_of_not_lt h32)]
    · simp [h8]
  refine ⟨hs, hn, ?_, ?_, ?_, set_skip_wellFormed h, set_no_seed_wellFormed h b, ?_, ?_⟩
  · intro c hc
    obtain ⟨k, rfl, _, k8, k9⟩ := edgeFlags_cases hc
    exact ⟨and_two_pow_congr (hs k k9), and_two_pow_congr (hn k k8)⟩
  · rw [NO_SEED_eq]; exact and_two_pow_congr (hs 8 (by decide))
  · rw [SKIP_eq]; exact and_two_pow_congr (hn 9 (by decide))
  · exact ⟨rfl, rfl, rfl, rfl, rfl, rfl⟩
  · cases b <;> exact ⟨rfl, rfl, rfl, rfl, rfl, rfl⟩

/-- Witness for C2 at the 32-bit flags value 0xFFFFFFFF with `set_no_seed(false)`. -/
theorem mutators_frame_witness :
    (sample 0xFFFFFFFF).WellFormed ∧
    (∀ i, i ≠ 9 → (sample 0xFFFFFFFF).set_skip.flags.testBit i =
        (sample 0xFFFFFFFF).flags.testBit i) ∧
    (∀ i, i ≠ 8 → ((sample 0xFFFFFFFF).set_no_seed false).flags.testBit i =
        (sample 0xFFFFFFFF).flags.testBit i) :=
  have h := mutators_frame (sample 0xFFFFFFFF) (by decide) false
  ⟨by decide, h.1, h.2.1⟩

/-- C4: the eight flag constants are non-zero single bits and pairwise disjoint; for
every flags value, setting or clearing any no-neighbor or fold bit changes neither
`skip()` nor `is_seed_candidate()`, and `skip()` does not depend on the NO_SEED bit. -/
theorem flags_independent (l : IntersectionLine) :
    (∀ c ∈ allFlags, c ≠ 0 ∧ ∃ k, c = 2 ^ k) ∧
    allFlags.Pairwise (fun c d => c &&& d = 0) ∧
    (∀ c ∈ edgeFlags,
      (l.set_flag c).skip = l.skip ∧ (l.clear_flag c).skip = l.skip ∧
      (l.set_flag c).is_seed_candidate = l.is_seed_candidate ∧
      (l.clear_flag c).is_seed_candidate = l.is_seed_candidate) ∧
    (∀ b, (l.set_no_seed b).skip = l.skip) ∧
    (∀ m : IntersectionLine, (∀ i, i ≠ 8 → m.flags.testBit i = l.flags.testBit i) →
      m.skip = l.skip) := by
  refine ⟨?_, by decide, ?_, ?_, ?_⟩
  · intro c hc
    simp only [allFlags, List.mem_cons, List.mem_singleton, List.not_mem_nil, or_false] at hc
    rcases hc with h | h | h | h | h | h | h | h <;> subst h
    · exact ⟨by decide, 0, by decide⟩
    · exact ⟨by decide, 1, by decide⟩
    · exact ⟨by decide, 2, by decide⟩
    · exact ⟨by decide, 4, by decide⟩
    · exact ⟨by decide, 5, by decide⟩
    · exact ⟨by decide, 6, by decide⟩
    · exact ⟨by decide, 8, by decide⟩
    · exact ⟨by decide, 9, by decide⟩
  · intro c hc
    obtain ⟨k, rfl, k32, k8, k9⟩ := edgeFlags_cases hc
    have s8 : (l.set_flag (2 ^ k)).flags.testBit 8 = l.flags.testBit 8 := by
      rw [set_flag_testBit]; simp [k8]
    have s9 : (l.set_flag (2 ^ k)).flags.testBit 9 = l.flags.testBit 9 := by
      rw [set_flag_testBit]; simp [k9]
    have c8 : (l.clear_flag (2 ^ k)).flags.testBit 8 = l.flags.testBit 8 := by
      rw [clear_flag_testBit _ _ k32]; simp [k8]
    have c9 : (l.clear_flag (2 ^ k)).flags.testBit 9 = l.flags.testBit 9 := by
      rw [clear_flag_testBit _ _ k32]; simp [k9]
    simp only [skip_eq_testBit, is_seed_candidate_eq_testBit, s8, s9, c8, c9, and_self]
  · intro b
    rw [skip_eq_testBit, skip_eq_testBit, set_no_seed_testBit]
    cases b <;> simp
  · intro m hm
    rw [skip_eq_testBit, skip_eq_testBit]
    exact hm 9 (by decide)

/-- C8: after `set_skip()`, `skip()` is true and `is_seed_candidate()` is false, and
both stay so after every finite sequence of further `set_skip()` and
`set_no_seed(b)` calls; no mutator clears SKIP, and `set_skip` is idempotent. -/
theorem skip_permanent (l : IntersectionLine) (calls : List Mutator) :
    l.set_skip.skip = true ∧ l.set_skip.is_seed_candidate = false ∧
    (l.set_skip.run calls).skip = true ∧
    (l.set_skip.run calls).is_seed_candidate = false ∧
    (∀ (m : Mutator) (x : IntersectionLine), x.skip = true → (m.apply x).skip = true) ∧
    l.set_skip.set_skip = l.set_skip := by
  have h0 : l.set_skip.skip = true := by
    rw [skip_eq_testBit, set_skip_testBit]; simp
  have hseed : ∀ x : IntersectionLine, x.skip = true → x.is_seed_candidate = false := by
    intro x hx
    rw [skip_eq_testBit] at hx
    rw [is_seed_candidate_eq_testBit, hx]; simp
  have hrun := skip_run calls l.set_skip h0
  refine ⟨h0, hseed _ h0, hrun, hseed _ hrun, fun m x hx => skip_apply m x hx, ?_⟩
  refine flags_ext rfl rfl rfl rfl rfl rfl ?_
  intro i
  rw [set_skip_testBit, set_skip_testBit]
  cases l.flags.testBit i <;> simp

/-- C9: `set_no_seed` is last-write-wins on every 32-bit flags value: after
`set_no_seed(b1)` then `set_no_seed(b2)` the line equals what `set_no_seed(b2)` alone
leaves, the NO_SEED bit equals `b2`, `is_seed_candidate()` equals
`!b2 && !skip()`, and `set_no_seed(true)` then `set_no_seed(false)` restores the
original line when NO_SEED was clear. -/
theorem set_no_seed_last_write_wins (l : IntersectionLine) (h : l.WellFormed)
    (b1 b2 : Bool) :
    (l.set_no_seed b1).set_no_seed b2 = l.set_no_seed b2 ∧
    (l.set_no_seed b2).set_no_seed b2 = l.set_no_seed b2 ∧
    ((l.set_no_seed b1).set_no_seed b2).flags.testBit 8 = b2 ∧
    ((((l.set_no_seed b1).set_no_seed b2).flags &&& NO_SEED != 0) = b2) ∧
    ((l.set_no_seed b1).set_no_seed b2).is_seed_candidate = (!b2 && !l.skip) ∧
    ((l.set_no_seed b1).set_no_seed b2).is_seed_candidate =
      (!b2 && !((l.set_no_seed b1).set_no_seed b2).skip) ∧
    (l.flags &&& NO_SEED = 0 → (l.set_no_seed true).set_no_seed false = l) := by
  have hfields : ∀ (x : IntersectionLine) (b : Bool),
      (x.set_no_seed b).line = x.line ∧ (x.set_no_seed b).a_id = x.a_id ∧
      (x.set_no_seed b).b_id = x.b_id ∧ (x.set_no_seed b).edge_a_id = x.edge_a_id ∧
      (x.set_no_seed b).edge_b_id = x.edge_b_id ∧
      (x.set_no_seed b).edge_type = x.edge_type := by
    intro x b; cases b <;> exact ⟨rfl, rfl, rfl, rfl, rfl, rfl⟩
  have hlww : ∀ c1 c2 : Bool, (l.set_no_seed c1).set_no_seed c2 = l.set_no_seed c2 := by
    intro c1 c2
    obtain ⟨a1, a2, a3, a4, a5, a6⟩ := hfields l c1
    obtain ⟨d1, d2, d3, d4, d5, d6⟩ := hfields (l.set_no_seed c1) c2
    obtain ⟨e1, e2, e3, e4, e5, e6⟩ := hfields l c2
    apply flags_ext (by rw [d1, a1, e1]) (by rw [d2, a2, e2]) (by rw [d3, a3, e3])
      (by rw [d4, a4, e4]) (by rw [d5, a5, e5]) (by rw [d6, a6, e6])
    intro i
    rw [set_no_seed_testBit, set_no_seed_testBit, set_no_seed_testBit]
    by_cases h32 : i < 32
    · by_cases h8 : 8 = i <;>
        cases c1 <;> cases c2 <;> cases l.flags.testBit i <;> simp [h8, h32]
    · have hhi : l.flags.testBit i = false :=
        testBit_of_wellFormed h (Nat.le_of_not_lt h32)
      have h8 : ¬ (8 = i) := fun e => h32 (by omega)
      cases c1 <;> cases c2 <;> simp [h8, h32, hhi]
  have hbit : (l.set_no_seed b2).flags.testBit 8 = b2 := by
    rw [set_no_seed_testBit]
    cases b2 <;> simp
  have hskip : (l.set_no_seed b2).skip = l.skip := by
    rw [skip_eq_testBit, skip_eq_testBit, set_no_seed_testBit]
    cases b2 <;> simp
  have hcand : (l.set_no_seed b2).is_seed_candidate = (!b2 && !l.skip) := by
    rw [is_seed_candidate_eq_testBit, hbit, ← skip_eq_testBit, hskip]
  refine ⟨hlww b1 b2, hlww b2 b2, ?_, ?_, ?_, ?_, ?_⟩
  · rw [hlww]; exact hbit
  · rw [hlww, NO_SEED_eq, and_two_pow_bne_zero]; exact hbit
  · rw [hlww]; exact hcand
  · rw [hlww, hskip]; exact hcand
  · intro hclear
    have h8 : l.flags.testBit 8 = false := by
      rw [NO_SEED_eq] at hclear
      exact (and_two_pow_eq_zero_iff _ _).1 hclear
    rw [hlww]
    refine flags_ext rfl rfl rfl rfl rfl rfl ?_
    intro i
    rw [set_no_seed_testBit]
    by_cases hi : 8 = i
    · subst hi; simp [h8]
    · by_cases h32 : i < 32
      · simp [hi, h32]
      · simp [h32, testBit_of_wellFormed h (Nat.le_of_not_lt h32)]

/-- Witness for C9 at flags 0x2FF (SKIP, fold and no-neighbor bits set, NO_SEED
clear), `set_no_seed(true)` then `set_no_seed(false)`. -/
theorem set_no_seed_last_write_wins_witness :
    (sample 0x2FF).WellFormed ∧
    ((sample 0x2FF).set_no_seed true).set_no_seed false = (sample 0x2FF).set_no_seed false ∧
    (((sample 0x2FF).set_no_seed true).set_no_seed false).flags.testBit 8 = false ∧
    ((sample 0x2FF).set_no_seed true).set_no_seed false = sample 0x2FF :=
  have h := set_no_seed_last_write_wins (sample 0x2FF) (by decide) true false
  ⟨by decide, h.1, h.2.2.1, h.2.2.2.2.2.2 (by decide)⟩

/-- C10: a default-constructed IntersectionLine has flags 0, so none of the eight
flag bits is set, `skip()` is false, `is_seed_candidate()` is true, and its
edge_type is feGeneral. -/
theorem default_line_flags (base : Line) :
    (IntersectionLine.default base).flags = 0 ∧
    (∀ c ∈ allFlags, (IntersectionLine.default base).flags &&& c = 0) ∧
    (IntersectionLine.default base).skip = false ∧
    (IntersectionLine.default base).is_seed_candidate = true ∧
    (IntersectionLine.default base).edge_type = FacetEdgeType.feGeneral := by
  refine ⟨rfl, ?_, ?_, ?_, rfl⟩
  · intro c _
    show 0 &&& c = 0
    exact Nat.zero_and c
  · rw [skip_eq_testBit]
    show (0 : Nat).testBit 9 = false
    exact Nat.zero_testBit 9
  · rw [is_seed_candidate_eq_testBit]
    show (!(0 : Nat).testBit 8 && !(0 : Nat).testBit 9) = true
    rw [Nat.zero_testBit, Nat.zero_testBit]
    rfl

/-- C5, the claim fails: the default-constructed line is a line the interface
constructs, and neither of its end points has exactly one reference set (all four
ids are -1). -/
theorem default_line_no_reference_set :
    Constructed (IntersectionLine.default ⟨⟨0, 0⟩, ⟨0, 0⟩⟩) ∧
    ¬ ExactlyOneSet (IntersectionLine.default ⟨⟨0, 0⟩, ⟨0, 0⟩⟩).a_id
        (IntersectionLine.default ⟨⟨0, 0⟩, ⟨0, 0⟩⟩).edge_a_id ∧
    ¬ ExactlyOneSet (IntersectionLine.default ⟨⟨0, 0⟩, ⟨0, 0⟩⟩).b_id
        (IntersectionLine.default ⟨⟨0, 0⟩, ⟨0, 0⟩⟩).edge_b_id :=
  ⟨Constructed.default _, by decide, by decide⟩

/-- C5, amended: every line obtained from the default constructor by the member
functions `set_skip` and `set_no_seed` has a_id, edge_a_id, b_id and edge_b_id all
equal to -1, so for each end point at most one reference is set (in fact none). -/
theorem constructed_line_ids (l : IntersectionLine) (h : Constructed l) :
    (l.a_id = -1 ∧ l.edge_a_id = -1 ∧ l.b_id = -1 ∧ l.edge_b_id = -1) ∧
    ¬ (l.a_id ≠ -1 ∧ l.edge_a_id ≠ -1) ∧ ¬ (l.b_id ≠ -1 ∧ l.edge_b_id ≠ -1) := by
  have key : l.a_id = -1 ∧ l.edge_a_id = -1 ∧ l.b_id = -1 ∧ l.edge_b_id = -1 := by
    induction h with
    | default base => exact ⟨rfl, rfl, rfl, rfl⟩
    | step x m _ ih =>
      cases m with
      | set_skip => exact ih
      | set_no_seed b => cases b <;> exact ih
  exact ⟨key, fun hh => hh.1 key.1, fun hh => hh.1 key.2.2.1⟩

/-- Witness for the amended C5 at a default-constructed line after `set_skip()`. -/
theorem constructed_line_ids_witness :
    Constructed (Mutator.apply (IntersectionLine.default ⟨⟨0, 0⟩, ⟨5, 5⟩⟩) Mutator.set_skip) ∧
    (Mutator.apply (IntersectionLine.default ⟨⟨0, 0⟩, ⟨5, 5⟩⟩) Mutator.set_skip).a_id = -1 ∧
    (Mutator.apply (IntersectionLine.default ⟨⟨0, 0⟩, ⟨5, 5⟩⟩) Mutator.set_skip).edge_a_id = -1 :=
  have hc : Constructed
      (Mutator.apply (IntersectionLine.default ⟨⟨0, 0⟩, ⟨5, 5⟩⟩) Mutator.set_skip) :=
    Constructed.step _ _ (Constructed.default _)
  have h := constructed_line_ids _ hc
  ⟨hc, h.1.1, h.1.2.1⟩

end IntersectionLine

/-! ## Endpoint references -/

/-- C3, the claim fails: the two-argument constructor called with (0, 0) produces a
reference in which both point_id and edge_id differ from -1. -/
theorem intersectionReference_both_set :
    IntersectionReference.Constructed (IntersectionReference.ctor 0 0) ∧
    (IntersectionReference.ctor 0 0).point_id ≠ -1 ∧
    (IntersectionReference.ctor 0 0).edge_id ≠ -1 :=
  ⟨IntersectionReference.Constructed.ctor 0 0 (by decide) (by decide), by decide, by decide⟩

/-- C3, amended: the default constructor leaves point_id and edge_id both at -1;
the two-argument constructor (also when reached through the IntersectionPoint
constructors) stores its two arguments unchanged, so the reference it produces has
not both variants set exactly when at least one of the arguments is -1. -/
theorem intersectionReference_constructors (point_id edge_id : Int) (pt : Point) :
    (IntersectionReference.default.point_id = -1 ∧
      IntersectionReference.default.edge_id = -1) ∧
    ((IntersectionReference.ctor point_id edge_id).point_id = point_id ∧
      (IntersectionReference.ctor point_id edge_id).edge_id = edge_id) ∧
    (¬ ((IntersectionReference.ctor point_id edge_id).point_id ≠ -1 ∧
        (IntersectionReference.ctor point_id edge_id).edge_id ≠ -1) ↔
      (point_id = -1 ∨ edge_id = -1)) ∧
    (IntersectionPoint.default pt).ref = IntersectionReference.default ∧
    (IntersectionPoint.ctor point_id edge_id pt).ref =
      IntersectionReference.ctor point_id edge_id ∧
    (IntersectionPoint.ofRef (IntersectionReference.ctor point_id edge_id) pt).ref =
      IntersectionReference.ctor point_id edge_id := by
  refine ⟨⟨rfl, rfl⟩, ⟨rfl, rfl⟩, ?_, rfl, rfl, rfl⟩
  show ¬ (point_id ≠ -1 ∧ edge_id ≠ -1) ↔ (point_id = -1 ∨ edge_id = -1)
  constructor
  · intro hn
    by_cases hp : point_id = -1
    · exact Or.inl hp
    · by_cases he : edge_id = -1
      · exact Or.inr he
      · exact absurd ⟨hp, he⟩ hn
  · rintro (hp | he) ⟨np, ne⟩
    · exact np hp
    · exact ne he

/-! ## Facet classification -/

namespace TriangleMeshSlicer

end TriangleMeshSlicer

/-! ## Patches -/

/-- C7: for every mesh, `has_multiple_patches()` is true if and only if
`number_of_patches() > 1`; it is false when the mesh has one or zero patches, and a
mesh without facets has zero patches. -/
theorem has_multiple_patches_iff (m : TriangleMesh) :
    (m.has_multiple_patches = true ↔ m.number_of_patches > 1) ∧
    (m.number_of_patches ≤ 1 → m.has_multiple_patches = false) ∧
    (m.facets = [] → m.number_of_patches = 0 ∧ m.has_multiple_patches = false) := by
  have hiff : m.has_multiple_patches = true ↔ m.number_of_patches > 1 := by
    unfold TriangleMesh.has_multiple_patches
    exact decide_eq_true_iff
  have hle : m.number_of_patches ≤ 1 → m.has_multiple_patches = false := by
    intro h
    cases hb : m.has_multiple_patches
    · rfl
    · exact absurd (hiff.1 hb) (Nat.not_lt.2 h)
  refine ⟨hiff, hle, fun he => ?_⟩
  have h0 : m.number_of_patches = 0 := by
    unfold TriangleMesh.number_of_patches
    rw [he]
    rfl
  exact ⟨h0, hle (by omega)⟩

/-- Witness for C7: the empty mesh and one closed solid have at most one patch and
give false; two disjoint solids have two patches and give true. -/
theorem has_multiple_patches_iff_witness :
    (TriangleMesh.empty.number_of_patches = 0 ∧
      TriangleMesh.empty.has_multiple_patches = false) ∧
    (TriangleMesh.oneSolid.number_of_patches = 1 ∧
      TriangleMesh.oneSolid.has_multiple_patches = false) ∧
    (TriangleMesh.twoSolids.number_of_patches = 2 ∧
      TriangleMesh.twoSolids.has_multiple_patches = true) :=
  ⟨(has_multiple_patches_iff TriangleMesh.empty).2.2 rfl,
   ⟨by decide, (has_multiple_patches_iff TriangleMesh.oneSolid).2.1 (by decide)⟩,
   ⟨by decide, (has_multiple_patches_iff TriangleMesh.twoSolids).1.2 (by decide)⟩⟩

end Slic3r
